import Mathlib

/-!
Shallow embedding of the Polimec funding pallet
(`pallets/funding/src/functions.rs` and `pallets/funding/src/types.rs` of the
polimec-skeleton) for verifying the natural-language specification.

Runtime instantiation (`runtime/src/lib.rs`): `Balance = u128`,
`BlockNumber = u64`.  Machine integers are modelled as `Nat`; the saturating
operations of `sp_arithmetic` are modelled with their explicit caps, and plain
`+`/`*` of the source stay plain `Nat` operations (the proofs never leave the
representable range at the points where the source uses unchecked arithmetic).

The embedding works in a single-project world: each storage map of the pallet
keyed by the project id is represented by the entry of the one project under
consideration.  Events are ignored.  Calls to `add_to_update_store` made by
the round-transition functions are recorded as `(block, UpdateType)` requests
in the order they are issued; the bucket-probing of `add_to_update_store`
itself is modelled separately (`addToUpdateStore`).
-/

namespace Polimec

/-- `u128::MAX`, the cap of saturating `Balance` arithmetic. -/
def balMax : Nat := 2 ^ 128 - 1

/-- `u64::MAX`, the cap of saturating `BlockNumber` arithmetic. -/
def blockMax : Nat := 2 ^ 64 - 1

/-- `Balance::saturating_add`. -/
def satAdd (a b : Nat) : Nat := min (a + b) balMax

/-- `Balance::saturating_sub` (`Nat` subtraction is already truncated at 0). -/
def satSub (a b : Nat) : Nat := a - b

/-- `Balance::saturating_mul`. -/
def satMul (a b : Nat) : Nat := min (a * b) balMax

/-- `BlockNumber::saturating_add`. -/
def satAddBlock (a b : Nat) : Nat := min (a + b) blockMax

/-- `Balance::saturating_pow` (used by `add_decimals_to_number`). -/
def satPow (a b : Nat) : Nat := min (a ^ b) balMax

/-- `Perbill::ACCURACY`. -/
def perbillAcc : Nat := 1000000000

/-- `Perbill::from_rational` (= `from_rational_approximation`, rounding down):
clamps the denominator to at least one and the numerator to the denominator,
reduces both by `factor = max ⌈q / ACCURACY⌉ 1`, and divides.  Returns the
number of parts out of `perbillAcc`. -/
def perbillFromRational (p q : Nat) : Nat :=
  let q' := max q 1
  let p' := min p q'
  let factor := max ((q' + perbillAcc - 1) / perbillAcc) 1
  p' / factor * perbillAcc / (q' / factor)

/-- `Perbill * Balance` (`overflow_prune_mul`): computes
`b / ACCURACY * parts + b % ACCURACY * parts / ACCURACY`, which equals
`⌊b * parts / ACCURACY⌋`. -/
def perbillMul (parts b : Nat) : Nat :=
  b / perbillAcc * parts + b % perbillAcc * parts / perbillAcc

/-- `Percent::from_percent(10) * target`, as used by `do_evaluation_end`:
`⌊target * 10 / 100⌋`. -/
def percentTenOf (target : Nat) : Nat :=
  target / 100 * 10 + target % 100 * 10 / 100

theorem perbillMul_eq_div (parts b : Nat) :
    perbillMul parts b = b * parts / perbillAcc := by
  unfold perbillMul
  conv_rhs => rw [← Nat.div_add_mod b perbillAcc]
  rw [Nat.add_mul, Nat.mul_assoc perbillAcc (b / perbillAcc) parts,
    Nat.mul_add_div (by norm_num [perbillAcc] : 0 < perbillAcc)]

theorem percentTenOf_eq_div (target : Nat) :
    percentTenOf target = target * 10 / 100 := by
  unfold percentTenOf
  conv_rhs => rw [← Nat.div_add_mod target 100]
  rw [Nat.add_mul, Nat.mul_assoc 100 (target / 100) 10,
    Nat.mul_add_div (by norm_num : (0:Nat) < 100)]

/-! ## `types.rs`: vesting schedules -/

/-- `Vesting<BlockNumber, Balance>` of `types.rs`. -/
structure Vesting where
  amount : Nat
  start : Nat
  «end» : Nat
  step : Nat
  nextWithdrawal : Nat
  deriving Repr, DecidableEq

/-- `Vesting::calculate_next_withdrawal` of `types.rs`: errors when the
remaining `amount` is zero; otherwise advances `next_withdrawal` by `step`
(saturating on `BlockNumber`), pays out the whole remaining `amount` and
leaves `amount = 0`.  The Rust method mutates `self` and returns
`Result<Balance, ()>`; the embedding returns the paid amount with the
updated schedule. -/
def Vesting.calculateNextWithdrawal (v : Vesting) : Except Unit (Nat × Vesting) :=
  if v.amount = 0 then
    .error ()
  else
    let nextWithdrawal := satAddBlock v.nextWithdrawal v.step
    let withdrawAmount := v.amount
    .ok (withdrawAmount,
      { v with nextWithdrawal := nextWithdrawal, amount := v.amount - withdrawAmount })

/-! ## `types.rs`: statuses, bids, schedule actions -/

/-- `RejectionReason` of `types.rs`. -/
inductive RejectionReason
  | afterCandleEnd
  | noTokensLeft
  deriving Repr, DecidableEq

/-- `BidStatus<Balance>` of `types.rs`. -/
inductive BidStatus
  | yetUnknown
  | accepted
  | rejected (reason : RejectionReason)
  | partiallyAccepted (amount : Nat) (reason : RejectionReason)
  deriving Repr, DecidableEq

/-- `AuctionPhase` of `types.rs`. -/
inductive AuctionPhase
  | english
  | candle
  deriving Repr, DecidableEq

/-- `ProjectStatus` of `types.rs`. -/
inductive ProjectStatus
  | application
  | evaluationRound
  | auctionInitializePeriod
  | evaluationFailed
  | auctionRound (phase : AuctionPhase)
  | communityRound
  | remainderRound
  | fundingEnded
  | readyToLaunch
  deriving Repr, DecidableEq

/-- `UpdateType` of `types.rs`. -/
inductive UpdateType
  | evaluationEnd
  | englishAuctionStart
  | candleAuctionStart
  | communityFundingStart
  | remainderFundingStart
  | fundingEnd
  deriving Repr, DecidableEq

/-- `BidInfo` of `types.rs`, in the single-project world (the `project` field
is dropped); accounts are modelled as `Nat` ids. -/
structure BidInfo where
  bidId : Nat
  amount : Nat
  price : Nat
  ticketSize : Nat
  when : Nat
  bidder : Nat
  funded : Bool
  plmcVestingPeriod : Vesting
  ctVestingPeriod : Vesting
  status : BidStatus
  deriving Repr, DecidableEq

/-- `BidInfo::new` of `types.rs`: `ticket_size = amount.saturating_mul(price)`,
`funded = false`, `status = YetUnknown`. -/
def BidInfo.new (bidId amount price when bidder : Nat)
    (plmcVestingPeriod ctVestingPeriod : Vesting) : BidInfo :=
  { bidId := bidId
    amount := amount
    price := price
    ticketSize := satMul amount price
    when := when
    bidder := bidder
    funded := false
    plmcVestingPeriod := plmcVestingPeriod
    ctVestingPeriod := ctVestingPeriod
    status := BidStatus.yetUnknown }

/-- Errors of the pallet (`Error<T>` in `lib.rs`) that the embedded functions
can return, plus the pallet-level dispatch errors they map to. -/
inductive FundingError
  | projectNotFound
  | projectInfoNotFound
  | projectIssuerNotFound
  | fieldIsNone
  | evaluationPeriodNotEnded
  | projectNotInApplicationRound
  | projectAlreadyFrozen
  | metadataNotProvided
  | projectNotInEvaluationRound
  | tooEarlyForEnglishAuctionStart
  | projectNotInAuctionInitializePeriodRound
  | tooEarlyForCandleAuctionStart
  | projectNotInEnglishAuctionRound
  | tooEarlyForCommunityRoundStart
  | projectNotInCandleAuctionRound
  | tooEarlyForRemainderRoundStart
  | projectNotInCommunityRound
  | tooEarlyForFundingEnd
  | projectNotInFundingEndedRound
  | projectNotInUpdateStore
  | noBidsFound
  | impossibleState
  | contributionToThemselves
  | auctionNotStarted
  | bidTooLow
  | contributionTooLow
  | insufficientBalance
  | insufficientFunds
  | tooLateForBidBonding
  | tooLateForContributingBonding
  | badMath
  | assetCreationFailed
  | cannotClaimYet
  deriving Repr, DecidableEq

/-! ## Stable sorting

Rust's `Vec::sort` and `Vec::sort_by_key` are stable sorts; a stable sort by a
total transitive comparison is unique, so the executable insertion sort below
produces exactly the list the Rust sort produces. -/

/-- Insert `x` after every element `y` of the (already sorted) list with
`le y x`; equal elements therefore keep their original relative order. -/
def insertSorted (le : α → α → Bool) (x : α) : List α → List α
  | [] => [x]
  | y :: ys => if le y x then y :: insertSorted le x ys else x :: y :: ys

/-- Stable sort: fold the input left to right, inserting each element into the
sorted prefix. -/
def stableSortBy (le : α → α → Bool) (l : List α) : List α :=
  l.foldl (fun acc x => insertSorted le x acc) []

/-- `bids.sort()` of `calculate_weighted_average_price`: the `Ord` instance of
`BidInfo` (`types.rs` lines 247-253) compares the `price` field only, so the
list is sorted by price ascending, ties keeping their storage order. -/
def sortBidsByOrd (bids : List BidInfo) : List BidInfo :=
  stableSortBy (fun a b => a.price ≤ b.price) bids

/-- `user_bids.sort_by_key(|bid| Reverse(bid.price))` of `do_bid`: price
descending, ties keeping their previous order. -/
def sortBidsDescending (bids : List BidInfo) : List BidInfo :=
  stableSortBy (fun a b => b.price ≤ a.price) bids

/-! ## `calculate_weighted_average_price` (`functions.rs` lines 1549-1651) -/

/-- The accepting walk of `calculate_weighted_average_price` (the closure of
the `map` over the sorted bids, which threads the mutable accumulators
`bid_amount_sum` and `bid_value_sum`): a bid with `when > end_block` is
rejected `AfterCandleEnd`; otherwise `buyable = total.saturating_sub(sum)`;
if `buyable = 0` the bid is rejected `NoTokensLeft`; if `amount ≤ buyable`
it is accepted and accrues `amount` and `amount * price`; otherwise it is
partially accepted for `buyable`, which accrues.  Returns the processed bids
with the final two accumulators. -/
def bidAcceptanceWalk (endBlock total : Nat) :
    List BidInfo → Nat → Nat → List BidInfo × Nat × Nat
  | [], amtSum, valSum => ([], amtSum, valSum)
  | b :: rest, amtSum, valSum =>
    if endBlock < b.when then
      let b' := { b with status := BidStatus.rejected RejectionReason.afterCandleEnd }
      let (r, a, v) := bidAcceptanceWalk endBlock total rest amtSum valSum
      (b' :: r, a, v)
    else
      let buyable := satSub total amtSum
      if buyable = 0 then
        let b' := { b with status := BidStatus.rejected RejectionReason.noTokensLeft }
        let (r, a, v) := bidAcceptanceWalk endBlock total rest amtSum valSum
        (b' :: r, a, v)
      else if b.amount ≤ buyable then
        let b' := { b with status := BidStatus.accepted }
        let (r, a, v) := bidAcceptanceWalk endBlock total rest
          (satAdd amtSum b.amount) (satAdd valSum (b.amount * b.price))
        (b' :: r, a, v)
      else
        let b' := { b with status :=
          BidStatus.partiallyAccepted buyable RejectionReason.noTokensLeft }
        let (r, a, v) := bidAcceptanceWalk endBlock total rest
          (satAdd amtSum buyable) (satAdd valSum (buyable * b.price))
        (b' :: r, a, v)

/-- The weighted-price computation of `calculate_weighted_average_price`:
over accepted bids `Perbill::from_rational(amount * price, bid_value_sum) *
price`, over partially accepted bids the same with the accepted partial
amount; the terms are combined with `reduce(saturating_add)`, which is `none`
when no bid was (partially) accepted. -/
def bidWeightedPrice (valSum : Nat) (bids : List BidInfo) : Option Nat :=
  let terms := bids.filterMap fun b =>
    match b.status with
    | BidStatus.accepted =>
        some (perbillMul (perbillFromRational (b.amount * b.price) valSum) b.price)
    | BidStatus.partiallyAccepted amt _ =>
        some (perbillMul (perbillFromRational (amt * b.price) valSum) b.price)
    | _ => none
  match terms with
  | [] => none
  | t :: ts => some (ts.foldl satAdd t)

/-- Result of `calculate_weighted_average_price`: the bids with their new
statuses (written back to storage), the accepted amount sum, and the weighted
token price. -/
structure ClearingResult where
  bids : List BidInfo
  bidAmountSum : Nat
  weightedTokenPrice : Nat
  deriving Repr, DecidableEq

/-- `calculate_weighted_average_price(project_id, end_block,
total_allocation_size)`: collects the stored bids, sorts them with the
price-only `Ord`, runs the accepting walk, and computes the weighted price;
errors with `NoBidsFound` when no bid was accepted or partially accepted.
(The surrounding storage writes are applied by the caller model.) -/
def calculateWeightedAveragePrice (endBlock totalAllocationSize : Nat)
    (bids : List BidInfo) : Except FundingError ClearingResult :=
  let sorted := sortBidsByOrd bids
  let (processed, amtSum, valSum) := bidAcceptanceWalk endBlock totalAllocationSize sorted 0 0
  match bidWeightedPrice valSum processed with
  | none => Except.error FundingError.noBidsFound
  | some p => Except.ok ⟨processed, amtSum, p⟩

/-! ## `types.rs`: project metadata and details -/

/-- `BlockNumberPair<BlockNumber>` of `types.rs`. -/
structure BlockNumberPair where
  start : Option Nat
  «end» : Option Nat
  deriving Repr, DecidableEq

/-- `BlockNumberPair::update`: supplying only `start` or only `end` preserves
the other field. -/
def BlockNumberPair.update (p : BlockNumberPair) :
    Option Nat → Option Nat → BlockNumberPair
  | some s, none => ⟨some s, p.end⟩
  | none, some e => ⟨p.start, some e⟩
  | some s, some e => ⟨some s, some e⟩
  | none, none => ⟨p.start, p.end⟩

/-- `PhaseTransitionPoints<BlockNumber>` of `types.rs`. -/
structure PhaseTransitionPoints where
  application : BlockNumberPair
  evaluation : BlockNumberPair
  auctionInitializePeriod : BlockNumberPair
  englishAuction : BlockNumberPair
  randomCandleEnding : Option Nat
  candleAuction : BlockNumberPair
  community : BlockNumberPair
  remainder : BlockNumberPair
  deriving Repr, DecidableEq

/-- `TicketSize<Balance>` of `types.rs`. -/
structure TicketSize where
  minimum : Option Nat
  maximum : Option Nat
  deriving Repr, DecidableEq

/-- The fields of `ProjectMetadata` the embedded functions read (token name
and symbol, participant bounds and currencies are never read by them). -/
structure ProjectMetadata where
  totalAllocationSize : Nat
  minimumPrice : Nat
  ticketSize : TicketSize
  decimals : Nat
  offchainInformationHash : Option Nat
  deriving Repr, DecidableEq

/-- `ProjectDetails<BlockNumber, Balance>` of `types.rs`. -/
structure ProjectDetails where
  isFrozen : Bool
  weightedAveragePrice : Option Nat
  projectStatus : ProjectStatus
  phaseTransitionPoints : PhaseTransitionPoints
  fundraisingTarget : Nat
  remainingContributionTokens : Nat
  deriving Repr, DecidableEq

/-- The `ProjectDetails` built by `do_create` (`functions.rs` lines 54, 71-87):
`fundraising_target = total_allocation_size * minimum_price`, status
`Application`, application phase started `now`, and
`remaining_contribution_tokens = total_allocation_size`. -/
def createProjectDetails (project : ProjectMetadata) (now : Nat) : ProjectDetails :=
  { isFrozen := false
    weightedAveragePrice := none
    fundraisingTarget := project.totalAllocationSize * project.minimumPrice
    projectStatus := ProjectStatus.application
    phaseTransitionPoints :=
      { application := ⟨some now, none⟩
        evaluation := ⟨none, none⟩
        auctionInitializePeriod := ⟨none, none⟩
        englishAuction := ⟨none, none⟩
        randomCandleEnding := none
        candleAuction := ⟨none, none⟩
        community := ⟨none, none⟩
        remainder := ⟨none, none⟩ }
    remainingContributionTokens := project.totalAllocationSize }

/-- The runtime configuration constants the embedded functions read. -/
structure Config where
  evaluationDuration : Nat
  auctionInitializePeriodDuration : Nat
  englishAuctionDuration : Nat
  candleAuctionDuration : Nat
  communityFundingDuration : Nat
  remainderFundingDuration : Nat
  maximumBidsPerUser : Nat
  maxContributionsPerUser : Nat

/-- Outcome of a pallet call: `ok`/`err` as the `Result<_, DispatchError>` of
the source (an `Err` dispatch rolls the extrinsic back, so `err` carries no
state), and `panicked` for a reachable Rust panic (`unwrap`, `expect`,
out-of-bounds `swap_remove`, division by zero). -/
inductive RuntimeResult (σ ε : Type)
  | ok (s : σ)
  | err (e : ε)
  | panicked
  deriving Repr, DecidableEq

/-- The single-project slice of the pallet storage read and written by the
round-transition functions: `ProjectsDetails`, `ProjectsMetadata`,
`ProjectsIssuers`, the amounts of the project's `EvaluationBonds`, the
project's bids (`AuctionsInfo` flattened in storage order), whether
`T::Assets::create(project_id, ..)` already ran, and the
`(block, UpdateType)` requests issued to `add_to_update_store` in order. -/
structure PState where
  details : Option ProjectDetails
  metadata : Option ProjectMetadata
  issuer : Option Nat
  evaluationBonds : List Nat
  bids : List BidInfo
  assetCreated : Bool
  scheduled : List (Nat × UpdateType)
  deriving Repr, DecidableEq

/-! ## Round-transition functions (`functions.rs` lines 29-638)

Each function mirrors the order of reads, `ensure!` checks and writes of its
Rust counterpart.  An `ensure!`/`ok_or` failure returns `err` (the dispatch
error rolls the whole extrinsic back, so no state accompanies it). -/

/-- `do_evaluation_start` (`functions.rs` lines 121-161). -/
def doEvaluationStart (cfg : Config) (s : PState) (now : Nat) :
    RuntimeResult PState FundingError :=
  match s.details with
  | none => RuntimeResult.err FundingError.projectInfoNotFound
  | some info =>
    match s.metadata with
    | none => RuntimeResult.err FundingError.projectNotFound
    | some project =>
      if info.projectStatus = ProjectStatus.application then
        if info.isFrozen = false then
          if project.offchainInformationHash.isSome then
            let evaluationEndBlock := now + cfg.evaluationDuration
            let points := info.phaseTransitionPoints
            let points := { points with
              application := points.application.update none (some now)
              evaluation :=
                points.evaluation.update (some (now + 1)) (some evaluationEndBlock) }
            let info := { info with
              phaseTransitionPoints := points
              isFrozen := true
              projectStatus := ProjectStatus.evaluationRound }
            RuntimeResult.ok { s with
              details := some info
              scheduled :=
                s.scheduled ++ [(evaluationEndBlock + 1, UpdateType.evaluationEnd)] }
          else RuntimeResult.err FundingError.metadataNotProvided
        else RuntimeResult.err FundingError.projectAlreadyFrozen
      else RuntimeResult.err FundingError.projectNotInApplicationRound

/-- `do_evaluation_end` (`functions.rs` lines 191-261): past the guards, sums
the project's evaluation bonds with `saturating_add` and compares against
`Percent::from_percent(10) * fundraising_target`; the funded branch opens the
auction-initialize period and schedules `EnglishAuctionStart`, the unfunded
branch sets `EvaluationFailed` and schedules `FundingEnd` at `now + 1`. -/
def doEvaluationEnd (cfg : Config) (s : PState) (now : Nat) :
    RuntimeResult PState FundingError :=
  match s.details with
  | none => RuntimeResult.err FundingError.projectInfoNotFound
  | some info =>
    match info.phaseTransitionPoints.evaluation.«end» with
    | none => RuntimeResult.err FundingError.fieldIsNone
    | some evaluationEndBlock =>
      if info.projectStatus = ProjectStatus.evaluationRound then
        if evaluationEndBlock < now then
          let totalAmountBonded := s.evaluationBonds.foldl satAdd 0
          let evaluationTarget := percentTenOf info.fundraisingTarget
          let aipStartBlock := now + 1
          let aipEndBlock := aipStartBlock + cfg.auctionInitializePeriodDuration
          if evaluationTarget ≤ totalAmountBonded then
            let points := { info.phaseTransitionPoints with
              auctionInitializePeriod :=
                info.phaseTransitionPoints.auctionInitializePeriod.update
                  (some aipStartBlock) (some aipEndBlock) }
            let info := { info with
              phaseTransitionPoints := points
              projectStatus := ProjectStatus.auctionInitializePeriod }
            RuntimeResult.ok { s with
              details := some info
              scheduled :=
                s.scheduled ++ [(aipEndBlock + 1, UpdateType.englishAuctionStart)] }
          else
            let info := { info with projectStatus := ProjectStatus.evaluationFailed }
            RuntimeResult.ok { s with
              details := some info
              scheduled := s.scheduled ++ [(now + 1, UpdateType.fundingEnd)] }
        else RuntimeResult.err FundingError.evaluationPeriodNotEnded
      else RuntimeResult.err FundingError.projectNotInEvaluationRound

/-- `remove_from_update_store` (`functions.rs` lines 1499-1512) in the
single-project world: errors when no entry of this project is scheduled,
otherwise removes the entry (the first one, matching the iteration find). -/
def removeFromUpdateStore (s : PState) : RuntimeResult PState FundingError :=
  match s.scheduled with
  | [] => RuntimeResult.err FundingError.projectNotInUpdateStore
  | _ :: rest => RuntimeResult.ok { s with scheduled := rest }

/-- `do_english_auction` (`functions.rs` lines 285-337): note the timing check
precedes the status check, and a manual call inside the initialize period
removes the scheduled automatic transition. -/
def doEnglishAuction (cfg : Config) (s : PState) (now : Nat) :
    RuntimeResult PState FundingError :=
  match s.details with
  | none => RuntimeResult.err FundingError.projectInfoNotFound
  | some info =>
    match info.phaseTransitionPoints.auctionInitializePeriod.start with
    | none => RuntimeResult.err FundingError.evaluationPeriodNotEnded
    | some aipStartBlock =>
      match info.phaseTransitionPoints.auctionInitializePeriod.«end» with
      | none => RuntimeResult.err FundingError.evaluationPeriodNotEnded
      | some aipEndBlock =>
        if aipStartBlock ≤ now then
          if info.projectStatus = ProjectStatus.auctionInitializePeriod then
            let englishStartBlock := now + 1
            let englishEndBlock := now + cfg.englishAuctionDuration
            let points := { info.phaseTransitionPoints with
              englishAuction := info.phaseTransitionPoints.englishAuction.update
                (some englishStartBlock) (some englishEndBlock) }
            let info := { info with
              phaseTransitionPoints := points
              projectStatus := ProjectStatus.auctionRound AuctionPhase.english }
            let s := { s with details := some info }
            let afterRemove :=
              if now ≤ aipEndBlock then removeFromUpdateStore s else RuntimeResult.ok s
            match afterRemove with
            | RuntimeResult.ok s =>
              RuntimeResult.ok { s with
                scheduled :=
                  s.scheduled ++ [(englishEndBlock + 1, UpdateType.candleAuctionStart)] }
            | other => other
          else RuntimeResult.err FundingError.projectNotInAuctionInitializePeriodRound
        else RuntimeResult.err FundingError.tooEarlyForEnglishAuctionStart

/-- `do_candle_auction` (`functions.rs` lines 362-400). -/
def doCandleAuction (cfg : Config) (s : PState) (now : Nat) :
    RuntimeResult PState FundingError :=
  match s.details with
  | none => RuntimeResult.err FundingError.projectInfoNotFound
  | some info =>
    match info.phaseTransitionPoints.englishAuction.«end» with
    | none => RuntimeResult.err FundingError.fieldIsNone
    | some englishEndBlock =>
      if englishEndBlock < now then
        if info.projectStatus = ProjectStatus.auctionRound AuctionPhase.english then
          let candleStartBlock := now + 1
          let candleEndBlock := now + cfg.candleAuctionDuration
          let points := { info.phaseTransitionPoints with
            candleAuction := info.phaseTransitionPoints.candleAuction.update
              (some candleStartBlock) (some candleEndBlock) }
          let info := { info with
            phaseTransitionPoints := points
            projectStatus := ProjectStatus.auctionRound AuctionPhase.candle }
          RuntimeResult.ok { s with
            details := some info
            scheduled :=
              s.scheduled ++ [(candleEndBlock + 1, UpdateType.communityFundingStart)] }
        else RuntimeResult.err FundingError.projectNotInEnglishAuctionRound
      else RuntimeResult.err FundingError.tooEarlyForCandleAuctionStart

/-- `select_random_block` (`functions.rs` lines 1653-1663) given the decoded
random value: `candle_start + random % (candle_end - candle_start)`.  The Rust
`%` panics when the range is empty, hence the `Option`. -/
def selectRandomBlock (rand candleStartBlock candleEndBlock : Nat) : Option Nat :=
  if candleStartBlock < candleEndBlock then
    some (candleStartBlock + rand % (candleEndBlock - candleStartBlock))
  else none

/-- `do_community_funding` (`functions.rs` lines 424-474): after the guards it
draws the random candle-end block, runs `calculate_weighted_average_price`
with the project's `fundraising_target` as the walk's allocation bound (the
storage mutation inside that function sets `weighted_average_price` and
decreases `remaining_contribution_tokens` by the accepted sum), then opens the
community round and schedules `RemainderFundingStart`.  `rand` is the injected
randomness; the bid write-back loop is modelled as replacing the stored bids
with the processed ones (bid ids are assumed unique, else the loop errors). -/
def doCommunityFunding (cfg : Config) (rand : Nat) (s : PState) (now : Nat) :
    RuntimeResult PState FundingError :=
  match s.details with
  | none => RuntimeResult.err FundingError.projectInfoNotFound
  | some info =>
    match info.phaseTransitionPoints.candleAuction.start with
    | none => RuntimeResult.err FundingError.fieldIsNone
    | some candleStartBlock =>
      match info.phaseTransitionPoints.candleAuction.«end» with
      | none => RuntimeResult.err FundingError.fieldIsNone
      | some candleEndBlock =>
        if candleEndBlock < now then
          if info.projectStatus = ProjectStatus.auctionRound AuctionPhase.candle then
            match selectRandomBlock rand candleStartBlock candleEndBlock with
            | none => RuntimeResult.panicked
            | some endBlock =>
              let communityStartBlock := now + 1
              let communityEndBlock := now + cfg.communityFundingDuration
              match calculateWeightedAveragePrice endBlock info.fundraisingTarget s.bids with
              | Except.error e => RuntimeResult.err e
              | Except.ok res =>
                let info := { info with
                  weightedAveragePrice := some res.weightedTokenPrice
                  remainingContributionTokens :=
                    satSub info.remainingContributionTokens res.bidAmountSum }
                let points := { info.phaseTransitionPoints with
                  randomCandleEnding := some endBlock
                  community := info.phaseTransitionPoints.community.update
                    (some communityStartBlock) (some communityEndBlock) }
                let info := { info with
                  phaseTransitionPoints := points
                  projectStatus := ProjectStatus.communityRound }
                RuntimeResult.ok { s with
                  details := some info
                  bids := res.bids
                  scheduled := s.scheduled ++
                    [(communityEndBlock + 1, UpdateType.remainderFundingStart)] }
          else RuntimeResult.err FundingError.projectNotInCandleAuctionRound
        else RuntimeResult.err FundingError.tooEarlyForCommunityRoundStart

/-- `do_remainder_funding` (`functions.rs` lines 497-532). -/
def doRemainderFunding (cfg : Config) (s : PState) (now : Nat) :
    RuntimeResult PState FundingError :=
  match s.details with
  | none => RuntimeResult.err FundingError.projectInfoNotFound
  | some info =>
    match info.phaseTransitionPoints.community.«end» with
    | none => RuntimeResult.err FundingError.fieldIsNone
    | some communityEndBlock =>
      if communityEndBlock < now then
        if info.projectStatus = ProjectStatus.communityRound then
          let remainderStartBlock := now + 1
          let remainderEndBlock := now + cfg.remainderFundingDuration
          let points := { info.phaseTransitionPoints with
            remainder := info.phaseTransitionPoints.remainder.update
              (some remainderStartBlock) (some remainderEndBlock) }
          let info := { info with
            phaseTransitionPoints := points
            projectStatus := ProjectStatus.remainderRound }
          RuntimeResult.ok { s with
            details := some info
            scheduled := s.scheduled ++ [(remainderEndBlock + 1, UpdateType.fundingEnd)] }
        else RuntimeResult.err FundingError.projectNotInCommunityRound
      else RuntimeResult.err FundingError.tooEarlyForRemainderRoundStart

/-- `do_end_funding` (`functions.rs` lines 564-603): it has no project-status
check, only the timing check (`now` past the remainder end when that point is
set, otherwise all tokens sold); it then sets `FundingEnded` and creates the
contribution-token asset (which fails if the asset class already exists). -/
def doEndFunding (s : PState) (now : Nat) : RuntimeResult PState FundingError :=
  match s.details with
  | none => RuntimeResult.err FundingError.projectInfoNotFound
  | some info =>
    match s.issuer with
    | none => RuntimeResult.err FundingError.projectIssuerNotFound
    | some _ =>
      match s.metadata with
      | none => RuntimeResult.err FundingError.projectNotFound
      | some _ =>
        let timingOk : Bool :=
          match info.phaseTransitionPoints.remainder.«end» with
          | some endBlock => decide (endBlock < now)
          | none => decide (info.remainingContributionTokens = 0)
        if timingOk then
          let info := { info with projectStatus := ProjectStatus.fundingEnded }
          if s.assetCreated then RuntimeResult.err FundingError.assetCreationFailed
          else RuntimeResult.ok { s with details := some info, assetCreated := true }
        else RuntimeResult.err FundingError.tooEarlyForFundingEnd

/-- `do_ready_to_launch` (`functions.rs` lines 622-637). -/
def doReadyToLaunch (s : PState) : RuntimeResult PState FundingError :=
  match s.details with
  | none => RuntimeResult.err FundingError.projectInfoNotFound
  | some info =>
    if info.projectStatus = ProjectStatus.fundingEnded then
      let info := { info with projectStatus := ProjectStatus.readyToLaunch }
      RuntimeResult.ok { s with details := some info }
    else RuntimeResult.err FundingError.projectNotInFundingEndedRound

/-! ## Bidding (`do_bid`, `bond_bidding`) -/

/-- `add_decimals_to_number` (`functions.rs` lines 1680-1683). -/
def addDecimalsToNumber (number decimals : Nat) : Nat :=
  satMul number (satPow 10 decimals)

/-- `calculate_vesting_periods` (`functions.rs` lines 1516-1546),
`maxProjectsToUpdatePerBlock * 7` being the contribution-token vesting start:
the PLMC amount is `ticket_size.checked_div(multiplier).unwrap_or(ticket_size)`
(so a zero multiplier falls back to the full ticket), the CT amount is the
token amount with decimals; both schedules have `step = 0` and
`next_withdrawal = 0`. -/
def calculateVestingPeriods (maxProjectsToUpdatePerBlock multiplier tokenAmount
    tokenPrice decimals : Nat) : Vesting × Vesting :=
  let plmcStart := 0
  let ctStart := maxProjectsToUpdatePerBlock * 7
  let ticketSize := satMul tokenAmount tokenPrice
  let plmcAmount := if multiplier = 0 then ticketSize else ticketSize / multiplier
  let withDecimalsTokenAmount := addDecimalsToNumber tokenAmount decimals
  (⟨plmcAmount, plmcStart, plmcStart, 0, 0⟩,
   ⟨withDecimalsTokenAmount, ctStart, ctStart, 0, 0⟩)

/-- `Vec::swap_remove(i)`: removes and returns the element at `i`, moving the
last element into its place; `none` models the Rust panic on an out-of-bounds
index. -/
def swapRemove (l : List α) (i : Nat) : Option (α × List α) :=
  if h : i < l.length then
    some (l.get ⟨i, h⟩, (l.set i ((l.getLast?).getD (l.get ⟨i, h⟩))).dropLast)
  else none

/-- The check `matches!(project_info.project_status, ProjectStatus::AuctionRound(_))`. -/
def isAuctionRound : ProjectStatus → Bool
  | ProjectStatus.auctionRound _ => true
  | _ => false

/-- The storage and balances slice touched by `do_bid` for one
(project, bidder) pair: `ProjectsDetails`, `ProjectsMetadata`,
`ProjectsIssuers`, `BiddingBonds` (amount, when), `AuctionsInfo` for the
bidder, `NextBidId`, the bidder's free PLMC and PLMC under the
`BondType::Bidding` named reserve, and the bidder's free and reserved
`T::BiddingCurrency`. -/
structure BidState where
  details : Option ProjectDetails
  metadata : Option ProjectMetadata
  issuer : Option Nat
  biddingBond : Option (Nat × Nat)
  userBids : List BidInfo
  nextBidId : Nat
  plmcFree : Nat
  plmcReservedBidding : Nat
  biddingCurrencyFree : Nat
  biddingCurrencyReserved : Nat
  deriving Repr, DecidableEq

/-- `bond_bidding` (`functions.rs` lines 1399-1442): the `ProjectsDetails`
lookup is `.ok_or(..).unwrap()`, a panic when the project is absent.  When the
candle-auction end is set, bonding past it fails; otherwise the bond is
topped up (or created with `when = now`) and `amount` is moved from the free
balance into the `BondType::Bidding` named reserve — the reservation failure
rolls the `try_mutate` back, so the failed case leaves no mutation. -/
def bondBidding (s : BidState) (now amount : Nat) : RuntimeResult BidState FundingError :=
  match s.details with
  | none => RuntimeResult.panicked
  | some info =>
    let candleEndOk : Bool :=
      match info.phaseTransitionPoints.candleAuction.«end» with
      | some biddingEndBlock => decide (now < biddingEndBlock)
      | none => true
    if candleEndOk then
      if amount ≤ s.plmcFree then
        let newBond :=
          match s.biddingBond with
          | some (a, w) => (a + amount, w)
          | none => (amount, now)
        RuntimeResult.ok { s with
          biddingBond := some newBond
          plmcFree := s.plmcFree - amount
          plmcReservedBidding := s.plmcReservedBidding + amount }
      else RuntimeResult.err FundingError.insufficientBalance
    else RuntimeResult.err FundingError.tooLateForBidBonding

/-- `do_bid` (`functions.rs` lines 817-932).  Note two slips kept faithfully:
the loop `bonded_plmc.saturating_sub(bid.plmc_vesting_period.amount)` and
the line `required_plmc_bond.saturating_sub(bonded_plmc)` both discard their
results (`saturating_sub` returns a new value), so the bond requested from
`bond_bidding` is always the full `plmc_vesting_period.amount`, and the
eviction branch unreserves the evicted bid's `ticket_size` of bidding
currency but never touches `BiddingBonds` or the PLMC named reserve. -/
def doBid (maxBidsPerUser maxProjectsToUpdatePerBlock : Nat) (s : BidState)
    (bidder now amount price : Nat) (multiplierArg : Option Nat) :
    RuntimeResult BidState FundingError :=
  match s.details with
  | none => RuntimeResult.err FundingError.projectInfoNotFound
  | some info =>
    match s.issuer with
    | none => RuntimeResult.err FundingError.projectIssuerNotFound
    | some projectIssuer =>
      match s.metadata with
      | none => RuntimeResult.err FundingError.projectNotFound
      | some project =>
        let projectTicketSize := satMul amount price
        let multiplier := multiplierArg.getD 1
        let decimals := project.decimals
        if bidder ≠ projectIssuer then
          if isAuctionRound info.projectStatus then
            if project.minimumPrice ≤ price then
              let minOk : Bool :=
                match project.ticketSize.minimum with
                | some minimumTicketSize => decide (minimumTicketSize ≤ projectTicketSize)
                | none => true
              let maxOk : Bool :=
                match project.ticketSize.maximum with
                | some maximumTicketSize => decide (projectTicketSize ≤ maximumTicketSize)
                | none => true
              if minOk then
                if maxOk then
                  let (plmcVestingPeriod, ctVestingPeriod) :=
                    calculateVestingPeriods maxProjectsToUpdatePerBlock multiplier
                      amount price decimals
                  let bidId := s.nextBidId
                  let requiredPlmcBond := plmcVestingPeriod.amount
                  let bid := BidInfo.new bidId amount price now bidder
                    plmcVestingPeriod ctVestingPeriod
                  match bondBidding s now requiredPlmcBond with
                  | RuntimeResult.panicked => RuntimeResult.panicked
                  | RuntimeResult.err e => RuntimeResult.err e
                  | RuntimeResult.ok s1 =>
                    if s1.userBids.length < maxBidsPerUser then
                      if bid.ticketSize ≤ s1.biddingCurrencyFree then
                        RuntimeResult.ok { s1 with
                          userBids := sortBidsDescending (s1.userBids ++ [bid])
                          biddingCurrencyFree := s1.biddingCurrencyFree - bid.ticketSize
                          biddingCurrencyReserved :=
                            s1.biddingCurrencyReserved + bid.ticketSize
                          nextBidId := bidId + 1 }
                      else RuntimeResult.err FundingError.insufficientBalance
                    else
                      match swapRemove s1.userBids (maxBidsPerUser - 1) with
                      | none => RuntimeResult.panicked
                      | some (lowestBid, remainingBids) =>
                        if lowestBid.price < bid.price then
                          let moved := min lowestBid.ticketSize s1.biddingCurrencyReserved
                          let s2 := { s1 with
                            biddingCurrencyReserved := s1.biddingCurrencyReserved - moved
                            biddingCurrencyFree := s1.biddingCurrencyFree + moved }
                          if bid.ticketSize ≤ s2.biddingCurrencyFree then
                            if remainingBids.length < maxBidsPerUser then
                              RuntimeResult.ok { s2 with
                                userBids := sortBidsDescending (remainingBids ++ [bid])
                                biddingCurrencyFree :=
                                  s2.biddingCurrencyFree - bid.ticketSize
                                biddingCurrencyReserved :=
                                  s2.biddingCurrencyReserved + bid.ticketSize
                                nextBidId := bidId + 1 }
                            else RuntimeResult.panicked
                          else RuntimeResult.err FundingError.insufficientBalance
                        else RuntimeResult.err FundingError.bidTooLow
                else RuntimeResult.err FundingError.bidTooLow
              else RuntimeResult.err FundingError.bidTooLow
            else RuntimeResult.err FundingError.bidTooLow
          else RuntimeResult.err FundingError.auctionNotStarted
        else RuntimeResult.err FundingError.contributionToThemselves

/-! ## Contributing (`do_contribute`, `bond_contributing`) -/

/-- `ContributionInfo` of `types.rs`. -/
structure ContributionInfo where
  contributionAmount : Nat
  plmcVesting : Vesting
  ctVesting : Vesting
  deriving Repr, DecidableEq

/-- `user_contributions.sort_by_key(|c| Reverse(c.plmc_vesting.amount))`:
bonded-PLMC amount descending, ties keeping their previous order. -/
def sortContributionsDescending (l : List ContributionInfo) : List ContributionInfo :=
  stableSortBy (fun a b => b.plmcVesting.amount ≤ a.plmcVesting.amount) l

/-- The storage and balances slice touched by `do_contribute` for one
(project, contributor) pair.  `T::Currency` is PLMC, so the contributor's
free PLMC both pays the ticket and backs the `BondType::Contributing` named
reserve; `fundBalance` is the project pot (existential deposits are taken as
zero, so a transfer fails exactly when it exceeds the payer's free balance). -/
structure ContribState where
  details : Option ProjectDetails
  metadata : Option ProjectMetadata
  issuer : Option Nat
  contributingBond : Option Nat
  userContributions : List ContributionInfo
  plmcFree : Nat
  plmcReservedContributing : Nat
  fundBalance : Nat
  scheduled : List (Nat × UpdateType)
  deriving Repr, DecidableEq

/-- `bond_contributing` (`functions.rs` lines 1444-1486): same shape as
`bond_bidding` — the `ProjectsDetails` lookup is `.ok_or(..).unwrap()`
(panic when absent), bonding past a set remainder end fails, and otherwise
the bond is topped up (or created) while `amount` moves into the
`BondType::Contributing` named reserve. -/
def bondContributing (s : ContribState) (now amount : Nat) :
    RuntimeResult ContribState FundingError :=
  match s.details with
  | none => RuntimeResult.panicked
  | some info =>
    let remainderEndOk : Bool :=
      match info.phaseTransitionPoints.remainder.«end» with
      | some remainderEndBlock => decide (now < remainderEndBlock)
      | none => true
    if remainderEndOk then
      if amount ≤ s.plmcFree then
        let newBond :=
          match s.contributingBond with
          | some a => a + amount
          | none => amount
        RuntimeResult.ok { s with
          contributingBond := some newBond
          plmcFree := s.plmcFree - amount
          plmcReservedContributing := s.plmcReservedContributing + amount }
      else RuntimeResult.err FundingError.insufficientBalance
    else RuntimeResult.err FundingError.tooLateForContributingBonding

/-- `do_contribute` (`functions.rs` lines 948-1102).  As in `do_bid`, the
netting of the required bond against the existing unused contributing bond is
computed but its `saturating_sub` results are discarded, so the full
`plmc_vesting.amount` is always bonded.  The eviction branch refunds the
evicted contribution from the project pot, releases its PLMC from the named
reserve and shrinks `ContributingBonds` by its vesting amount. -/
def doContribute (maxContributionsPerUser maxProjectsToUpdatePerBlock : Nat)
    (s : ContribState) (contributor now tokenAmount : Nat)
    (multiplierArg : Option Nat) : RuntimeResult ContribState FundingError :=
  match s.issuer with
  | none => RuntimeResult.err FundingError.projectIssuerNotFound
  | some projectIssuer =>
    match s.details with
    | none => RuntimeResult.err FundingError.projectInfoNotFound
    | some info =>
      match s.metadata with
      | none => RuntimeResult.err FundingError.projectNotFound
      | some project =>
        let multiplier := multiplierArg.getD 1
        match info.weightedAveragePrice with
        | none => RuntimeResult.err FundingError.auctionNotStarted
        | some weightedAveragePrice =>
          let decimals := project.decimals
          if contributor ≠ projectIssuer then
            if info.projectStatus = ProjectStatus.communityRound ∨
                info.projectStatus = ProjectStatus.remainderRound then
              let buyableTokens :=
                if tokenAmount < info.remainingContributionTokens then tokenAmount
                else info.remainingContributionTokens
              let ticketSize := satMul buyableTokens weightedAveragePrice
              let (plmcVesting, ctVesting) :=
                calculateVestingPeriods maxProjectsToUpdatePerBlock multiplier
                  buyableTokens weightedAveragePrice decimals
              let contribution : ContributionInfo :=
                ⟨ticketSize, plmcVesting, ctVesting⟩
              let requiredPlmcBond := plmcVesting.amount
              let remainingCtsAfterPurchase :=
                satSub info.remainingContributionTokens buyableTokens
              match bondContributing s now requiredPlmcBond with
              | RuntimeResult.panicked => RuntimeResult.panicked
              | RuntimeResult.err e => RuntimeResult.err e
              | RuntimeResult.ok s1 =>
                let afterPush :
                    RuntimeResult ContribState FundingError :=
                  if s1.userContributions.length < maxContributionsPerUser then
                    RuntimeResult.ok { s1 with
                      userContributions := sortContributionsDescending
                        (s1.userContributions ++ [contribution]) }
                  else
                    match swapRemove s1.userContributions (maxContributionsPerUser - 1) with
                    | none => RuntimeResult.panicked
                    | some (lowestContribution, remaining) =>
                      if lowestContribution.plmcVesting.amount <
                          contribution.plmcVesting.amount then
                        if lowestContribution.contributionAmount ≤ s1.fundBalance then
                          let s2 := { s1 with
                            fundBalance :=
                              s1.fundBalance - lowestContribution.contributionAmount
                            plmcFree :=
                              s1.plmcFree + min lowestContribution.plmcVesting.amount
                                s1.plmcReservedContributing
                            plmcReservedContributing :=
                              s1.plmcReservedContributing -
                                min lowestContribution.plmcVesting.amount
                                  s1.plmcReservedContributing
                            contributingBond := s1.contributingBond.map
                              (fun a => satSub a lowestContribution.plmcVesting.amount) }
                          if remaining.length < maxContributionsPerUser then
                            RuntimeResult.ok { s2 with
                              userContributions := sortContributionsDescending
                                (remaining ++ [contribution]) }
                          else RuntimeResult.panicked
                        else RuntimeResult.err FundingError.insufficientFunds
                      else RuntimeResult.err FundingError.contributionTooLow
                match afterPush with
                | RuntimeResult.ok s3 =>
                  if ticketSize ≤ s3.plmcFree then
                    let s4 := { s3 with
                      plmcFree := s3.plmcFree - ticketSize
                      fundBalance := s3.fundBalance + ticketSize
                      details := some { info with
                        remainingContributionTokens := remainingCtsAfterPurchase } }
                    if remainingCtsAfterPurchase = 0 then
                      RuntimeResult.ok { s4 with
                        scheduled := s4.scheduled ++ [(now + 1, UpdateType.fundingEnd)] }
                    else RuntimeResult.ok s4
                  else RuntimeResult.err FundingError.insufficientFunds
                | other => other
            else RuntimeResult.err FundingError.auctionNotStarted
          else RuntimeResult.err FundingError.contributionToThemselves

/-! ## `add_to_update_store` (`functions.rs` lines 1488-1497) -/

/-- `ProjectsToUpdate::try_append` in the single-project world: appends the
update to the bucket at `blockNumber` when it is below the
`MaxProjectsToUpdatePerBlock` capacity, else fails. -/
def tryAppendUpdate (cap : Nat) (store : Nat → List UpdateType)
    (blockNumber : Nat) (u : UpdateType) : Option (Nat → List UpdateType) :=
  if (store blockNumber).length < cap then
    some (fun b => if b = blockNumber then store blockNumber ++ [u] else store b)
  else none

/-- `add_to_update_store(block_number, store)`: a `while` loop that retries
`try_append` at `block_number`, `block_number + 1`, … until a bucket has
room.  The loop is modelled with explicit fuel, `none` meaning the fuel ran
out before a free bucket was found (the Rust loop would still be probing);
it also returns the block at which the update landed. -/
def addToUpdateStore (cap : Nat) (store : Nat → List UpdateType)
    (blockNumber : Nat) (u : UpdateType) :
    Nat → Option ((Nat → List UpdateType) × Nat)
  | 0 => none
  | fuel + 1 =>
    match tryAppendUpdate cap store blockNumber u with
    | some store' => some (store', blockNumber)
    | none => addToUpdateStore cap store (blockNumber + 1) u fuel

/-! ## Claim C8: `calculate_next_withdrawal` -/

/-- C8: a call to `calculate_next_withdrawal` fails exactly when the remaining
amount is zero; on a positive remaining amount it pays out the entire
remaining amount as one step, advances `next_withdrawal` by the step length,
and leaves the remaining amount at zero, after which any further call fails.
(The range hypothesis keeps the `u64`-saturating advance exact; it holds for
every representable schedule, and in particular for the `step = 0` schedules
the pallet creates.) -/
theorem c8_vesting_withdrawal_exhausts (v : Vesting)
    (hrange : v.nextWithdrawal + v.step ≤ blockMax) :
    (v.calculateNextWithdrawal = Except.error () ↔ v.amount = 0) ∧
    (v.amount ≠ 0 →
      v.calculateNextWithdrawal =
        Except.ok (v.amount,
          { v with nextWithdrawal := v.nextWithdrawal + v.step, amount := 0 }) ∧
      Vesting.calculateNextWithdrawal
          { v with nextWithdrawal := v.nextWithdrawal + v.step, amount := 0 } =
        Except.error ()) := by
  unfold Vesting.calculateNextWithdrawal
  by_cases h : v.amount = 0
  · simp [h]
  · refine ⟨by simp [h], fun _ => ⟨?_, by simp⟩⟩
    simp only [h, if_false, satAddBlock, Nat.min_eq_left hrange, Nat.sub_self]

/-- Witness for C8 at the concrete schedule `⟨5, 0, 0, 3, 7⟩`. -/
theorem c8_witness :
    Vesting.calculateNextWithdrawal ⟨5, 0, 0, 3, 7⟩ =
      Except.ok (5, ⟨0, 0, 0, 3, 10⟩) ∧
    Vesting.calculateNextWithdrawal ⟨0, 0, 0, 3, 10⟩ = Except.error () := by
  have h := (c8_vesting_withdrawal_exhausts ⟨5, 0, 0, 3, 7⟩
    (by norm_num [blockMax])).2 (by norm_num)
  exact ⟨h.1, h.2⟩

/-! ## Claim C6: `add_to_update_store` -/

/-- C6: when `add_to_update_store` returns (the loop found a bucket within the
given fuel), the action was appended to the bucket of the first block at or
after the requested one whose bucket is below capacity, every other bucket is
unchanged, and every bucket from the requested block up to the landing block
is at capacity. -/
theorem c6_add_to_update_store_first_free (cap : Nat)
    (store : Nat → List UpdateType) (blockNumber : Nat) (u : UpdateType)
    (fuel : Nat) (store' : Nat → List UpdateType) (landing : Nat)
    (h : addToUpdateStore cap store blockNumber u fuel = some (store', landing)) :
    blockNumber ≤ landing ∧ (store landing).length < cap ∧
    store' landing = store landing ++ [u] ∧
    (∀ c, c ≠ landing → store' c = store c) ∧
    (∀ c, blockNumber ≤ c → c < landing → ¬(store c).length < cap) := by
  induction fuel generalizing blockNumber with
  | zero => simp [addToUpdateStore] at h
  | succ fuel ih =>
    rw [addToUpdateStore] at h
    by_cases hroom : (store blockNumber).length < cap
    · simp [tryAppendUpdate, hroom] at h
      obtain ⟨hs, hl⟩ := h
      subst hl
      refine ⟨le_refl _, hroom, ?_, ?_, ?_⟩
      · rw [← hs]; simp
      · intro c hc; rw [← hs]; simp [hc]
      · intro c h1 h2; omega
    · simp [tryAppendUpdate, hroom] at h
      obtain ⟨h1, h2, h3, h4, h5⟩ := ih (blockNumber + 1) h
      refine ⟨by omega, h2, h3, h4, ?_⟩
      intro c hc1 hc2
      rcases Nat.eq_or_lt_of_le hc1 with hc | hc
      · rw [← hc]; exact hroom
      · exact h5 c hc hc2

/-- The scheduler-overflow scenario store: two actions already at block 100. -/
def c6Store0 : Nat → List UpdateType := fun b =>
  if b = 100 then [UpdateType.evaluationEnd, UpdateType.fundingEnd] else []

/-- Witness for C6: with capacity 2 and two actions already at block 100, a
third action targeting block 100 lands at block 101, whose bucket had room
while block 100's did not. -/
theorem c6_witness :
    (addToUpdateStore 2 c6Store0 100 UpdateType.candleAuctionStart 2).map Prod.snd =
      some 101 ∧
    (c6Store0 101).length < 2 ∧ ¬(c6Store0 100).length < 2 := by
  have h := c6_add_to_update_store_first_free 2 c6Store0 100
    UpdateType.candleAuctionStart 2
    (fun b => if b = 101 then c6Store0 101 ++ [UpdateType.candleAuctionStart]
      else c6Store0 b) 101 rfl
  exact ⟨rfl, h.2.1, h.2.2.2.2 100 (le_refl _) (by norm_num)⟩

/-! ## Claim C9: `do_evaluation_end` branches -/

/-- C9: with the project in the evaluation round and the current block
strictly past the evaluation end block, `do_evaluation_end` moves the project
to `AuctionInitializePeriod` and schedules the English-auction start (at the
block after the initialize period ends) when the summed evaluation bonds
reach 10% of the fundraising target, and otherwise sets `EvaluationFailed`
and schedules the immediate (`now + 1`) `FundingEnd` processing that releases
the evaluators' bonds. -/
theorem c9_evaluation_end_branches (cfg : Config) (s : PState) (now : Nat)
    (info : ProjectDetails) (evaluationEndBlock : Nat)
    (hd : s.details = some info)
    (hstatus : info.projectStatus = ProjectStatus.evaluationRound)
    (hend : info.phaseTransitionPoints.evaluation.«end» = some evaluationEndBlock)
    (hnow : evaluationEndBlock < now) :
    (info.fundraisingTarget * 10 / 100 ≤ s.evaluationBonds.foldl satAdd 0 →
      doEvaluationEnd cfg s now = RuntimeResult.ok { s with
        details := some { info with
          phaseTransitionPoints := { info.phaseTransitionPoints with
            auctionInitializePeriod :=
              ⟨some (now + 1), some (now + 1 + cfg.auctionInitializePeriodDuration)⟩ }
          projectStatus := ProjectStatus.auctionInitializePeriod }
        scheduled := s.scheduled ++
          [(now + 1 + cfg.auctionInitializePeriodDuration + 1,
            UpdateType.englishAuctionStart)] }) ∧
    (s.evaluationBonds.foldl satAdd 0 < info.fundraisingTarget * 10 / 100 →
      doEvaluationEnd cfg s now = RuntimeResult.ok { s with
        details := some { info with projectStatus := ProjectStatus.evaluationFailed }
        scheduled := s.scheduled ++ [(now + 1, UpdateType.fundingEnd)] }) := by
  constructor
  · intro hfunded
    rw [← percentTenOf_eq_div] at hfunded
    simp [doEvaluationEnd, hd, hend, hstatus, hnow, hfunded, BlockNumberPair.update]
  · intro hunfunded
    rw [← percentTenOf_eq_div] at hunfunded
    simp [doEvaluationEnd, hd, hend, hstatus, hnow, Nat.not_le.mpr hunfunded,
      BlockNumberPair.update]

/-- The project details used by the C9 witness: evaluation round, evaluation
ending at block 10, fundraising target 1000. -/
def c9Details : ProjectDetails :=
  { isFrozen := true
    weightedAveragePrice := none
    projectStatus := ProjectStatus.evaluationRound
    phaseTransitionPoints :=
      { application := ⟨some 0, some 0⟩
        evaluation := ⟨some 1, some 10⟩
        auctionInitializePeriod := ⟨none, none⟩
        englishAuction := ⟨none, none⟩
        randomCandleEnding := none
        candleAuction := ⟨none, none⟩
        community := ⟨none, none⟩
        remainder := ⟨none, none⟩ }
    fundraisingTarget := 1000
    remainingContributionTokens := 500 }

/-- The C9 witness configuration (durations and caps). -/
def testCfg : Config :=
  { evaluationDuration := 10
    auctionInitializePeriodDuration := 20
    englishAuctionDuration := 10
    candleAuctionDuration := 5
    communityFundingDuration := 10
    remainderFundingDuration := 10
    maximumBidsPerUser := 4
    maxContributionsPerUser := 4 }

/-- Witness for C9 at block 11: bonds `[60, 50]` sum to 110 ≥ 100 (10% of the
1000 target), so the project moves to the auction-initialize period and the
English-auction start is scheduled; bonds `[60, 30]` sum to 90 < 100, so the
project ends in `EvaluationFailed` with `FundingEnd` scheduled at block 12. -/
theorem c9_witness :
    doEvaluationEnd testCfg
        ⟨some c9Details, none, none, [60, 50], [], false, []⟩ 11 =
      RuntimeResult.ok
        ⟨some { c9Details with
          phaseTransitionPoints := { c9Details.phaseTransitionPoints with
            auctionInitializePeriod := ⟨some 12, some 32⟩ }
          projectStatus := ProjectStatus.auctionInitializePeriod },
          none, none, [60, 50], [], false,
          [(33, UpdateType.englishAuctionStart)]⟩ ∧
    doEvaluationEnd testCfg
        ⟨some c9Details, none, none, [60, 30], [], false, []⟩ 11 =
      RuntimeResult.ok
        ⟨some { c9Details with projectStatus := ProjectStatus.evaluationFailed },
          none, none, [60, 30], [], false, [(12, UpdateType.fundingEnd)]⟩ := by
  constructor
  · have h := (c9_evaluation_end_branches testCfg
      ⟨some c9Details, none, none, [60, 50], [], false, []⟩ 11 c9Details 10
      rfl rfl rfl (by norm_num)).1 (by norm_num [c9Details, satAdd, balMax])
    simpa [testCfg, c9Details] using h
  · have h := (c9_evaluation_end_branches testCfg
      ⟨some c9Details, none, none, [60, 30], [], false, []⟩ 11 c9Details 10
      rfl rfl rfl (by norm_num)).2 (by norm_num [c9Details, satAdd, balMax])
    simpa [testCfg, c9Details] using h

/-! ## Claims C1-C3: the candle-auction clearing -/

deriving instance DecidableEq for Except

/-- An exhausted vesting schedule, used to fill bid records whose vesting
fields are irrelevant to the clearing walk. -/
def zeroVesting : Vesting := ⟨0, 0, 0, 0, 0⟩

/-- C1 failing input, project metadata: allocation 10 at minimum price 2, so
`do_create` sets `fundraising_target = 20`. -/
def c1Meta : ProjectMetadata := ⟨10, 2, ⟨some 1, none⟩, 0, some 1⟩

/-- C1 failing input: a single bid for 15 tokens at price 2, made at block 5
(before any candle cutoff). -/
def c1Bid : BidInfo := ⟨1, 15, 2, 30, 5, 3, false, zeroVesting, zeroVesting,
  BidStatus.yetUnknown⟩

/-- C1 failing input, project details at candle-auction close: the details
`do_create` builds from `c1Meta`, advanced to the candle round over blocks
10-20. -/
def c1Details : ProjectDetails :=
  { createProjectDetails c1Meta 0 with
    projectStatus := ProjectStatus.auctionRound AuctionPhase.candle
    phaseTransitionPoints := { (createProjectDetails c1Meta 0).phaseTransitionPoints with
      candleAuction := ⟨some 10, some 20⟩ } }

/-- C1 failing input, the single-project state at block 25. -/
def c1State : PState := ⟨some c1Details, some c1Meta, some 0, [], [c1Bid], false, []⟩

/-- C1: `do_community_funding` passes `fundraising_target` (allocation ×
minimum price, here 20), not `total_allocation_size` (here 10), as the
clearing walk's capacity — although the parameter of
`calculate_weighted_average_price` is named `total_allocation_size`.  On this
input the walk accepts 15 tokens against an allocation of 10, and
`remaining_contribution_tokens` is saturated to 0 instead of the claimed
(impossible) `10 − 15`: the accepted amounts exceed the total allocation
size. -/
theorem c1_code_bug_clearing_capped_by_target :
    (calculateWeightedAveragePrice 10 c1Details.fundraisingTarget [c1Bid]).toOption.map
        ClearingResult.bidAmountSum = some 15 ∧
    c1Meta.totalAllocationSize = 10 ∧ ¬(15 ≤ c1Meta.totalAllocationSize) ∧
    doCommunityFunding testCfg 0 c1State 25 = RuntimeResult.ok
      ⟨some { c1Details with
          weightedAveragePrice := some 2
          remainingContributionTokens := 0
          projectStatus := ProjectStatus.communityRound
          phaseTransitionPoints := { c1Details.phaseTransitionPoints with
            randomCandleEnding := some 10
            community := ⟨some 26, some 35⟩ } },
        some c1Meta, some 0, [], [{ c1Bid with status := BidStatus.accepted }], false,
        [(36, UpdateType.remainderFundingStart)]⟩ := by
  refine ⟨by decide, by decide, by decide, by decide⟩

/-- C2 failing input: the higher-priced of two bids, 10 tokens at price 2. -/
def c2BidHigh : BidInfo := ⟨1, 10, 2, 20, 5, 7, false, zeroVesting, zeroVesting,
  BidStatus.yetUnknown⟩

/-- C2 failing input: the lower-priced of two bids, 10 tokens at price 1. -/
def c2BidLow : BidInfo := ⟨2, 10, 1, 10, 5, 8, false, zeroVesting, zeroVesting,
  BidStatus.yetUnknown⟩

/-- C2: the clearing walk processes bids in price-ASCENDING order (Rust
`bids.sort()` with the `Ord` of `BidInfo`, which compares only `price`, and no
submission-time tie-break), not the claimed price-descending order.  With
capacity 10 and both bids before the cutoff, the walk accepts the price-1 bid
and rejects the price-2 bid with `NoTokensLeft`; a price-descending walk
would accept the price-2 bid. -/
theorem c2_code_bug_walk_is_price_ascending :
    calculateWeightedAveragePrice 100 10 [c2BidHigh, c2BidLow] =
      Except.ok ⟨[{ c2BidLow with status := BidStatus.accepted },
        { c2BidHigh with status := BidStatus.rejected RejectionReason.noTokensLeft }],
        10, 1⟩ := by
  decide

/-- C3 example bid A: 10,000 tokens at price 15. -/
def c3BidA : BidInfo := ⟨1, 10000, 15, 150000, 5, 1, false, zeroVesting, zeroVesting,
  BidStatus.yetUnknown⟩

/-- C3 example bid B: 20,000 tokens at price 20. -/
def c3BidB : BidInfo := ⟨2, 20000, 20, 400000, 5, 2, false, zeroVesting, zeroVesting,
  BidStatus.yetUnknown⟩

/-- C3 example bid C: 20,000 tokens at price 10. -/
def c3BidC : BidInfo := ⟨3, 20000, 10, 200000, 5, 3, false, zeroVesting, zeroVesting,
  BidStatus.yetUnknown⟩

/-- C3 counterexample: on the three accepted bids 10,000@15, 20,000@20 and
20,000@10 (all before the cutoff, allocation 50,000) the stored
`weighted_average_price` is 15, which is NOT the exact value
`12,250,000 / 750,000 ≈ 16.33` of the claimed formula. -/
theorem c3_counterexample_price_is_15 :
    calculateWeightedAveragePrice 100 50000 [c3BidA, c3BidB, c3BidC] =
      Except.ok ⟨[{ c3BidC with status := BidStatus.accepted },
        { c3BidA with status := BidStatus.accepted },
        { c3BidB with status := BidStatus.accepted }], 50000, 15⟩ ∧
    (15 : ℚ) ≠ 12250000 / 750000 := by
  refine ⟨by decide, by norm_num⟩

/-- C3 amended: the stored price is the `Perbill`-floored version of the
claimed formula — each weight is `⌊vᵢ · 10⁹ / Σv⌋` parts per billion and each
term `⌊weightᵢ · priceᵢ / 10⁹⌋`, the terms summed with saturating addition —
which on the example evaluates to `3 + 10 + 2 = 15`, the floor approximation
of the exact `≈ 16.33`. -/
theorem c3_amended_perbill_floored_price :
    calculateWeightedAveragePrice 100 50000 [c3BidA, c3BidB, c3BidC] =
      Except.ok ⟨[{ c3BidC with status := BidStatus.accepted },
        { c3BidA with status := BidStatus.accepted },
        { c3BidB with status := BidStatus.accepted }], 50000,
        200000 * 1000000000 / 750000 * 10 / 1000000000 +
          150000 * 1000000000 / 750000 * 15 / 1000000000 +
          400000 * 1000000000 / 750000 * 20 / 1000000000⟩ ∧
    200000 * 1000000000 / 750000 * 10 / 1000000000 +
        150000 * 1000000000 / 750000 * 15 / 1000000000 +
        400000 * 1000000000 / 750000 * 20 / 1000000000 = 15 ∧
    (15 : ℚ) < 12250000 / 750000 ∧ (12250000 : ℚ) / 750000 < 17 := by
  refine ⟨by decide, by decide, by norm_num, by norm_num⟩

/-! ## Claims C4 and C5: `do_bid` bonding and eviction -/

/-- Project metadata shared by the `do_bid` scenarios: allocation 100 at
minimum price 1, no maximum ticket size. -/
def c45Meta : ProjectMetadata := ⟨100, 1, ⟨some 1, none⟩, 0, some 1⟩

/-- Project details shared by the `do_bid` scenarios: English auction round,
no candle end set yet. -/
def c45Details : ProjectDetails :=
  { createProjectDetails c45Meta 0 with
    projectStatus := ProjectStatus.auctionRound AuctionPhase.english }

/-- C4 failing input: the bidder has an existing bidding bond of 10 PLMC and
no bids at all, so the whole bond is unused; free balances of 10 on both
currencies. -/
def c4State : BidState :=
  ⟨some c45Details, some c45Meta, some 0, some (10, 0), [], 5, 10, 10, 10, 0⟩

/-- C4: `do_bid` computes the unused part of the existing bond but discards
every `saturating_sub` result (`functions.rs` lines 871-874), so it passes
the FULL `plmc_vesting_period.amount` to `bond_bidding` instead of the
shortfall.  On this input the required bond is 10 and the unused existing
bond is 10, so the claim says 0 new PLMC is bonded; the run bonds 10 more:
the bond becomes `(20, 0)` and the named reserve 20, not 10. -/
theorem c4_code_bug_netting_discarded :
    doBid 4 1 c4State 1 6 10 1 none = RuntimeResult.ok { c4State with
      biddingBond := some (20, 0)
      userBids := [⟨5, 10, 1, 10, 6, 1, false, ⟨10, 0, 0, 0, 0⟩, ⟨10, 7, 7, 0, 0⟩,
        BidStatus.yetUnknown⟩]
      nextBidId := 6
      plmcFree := 0
      plmcReservedBidding := 20
      biddingCurrencyFree := 0
      biddingCurrencyReserved := 10 } ∧
    c4State.biddingBond = some (10, 0) ∧ c4State.userBids = [] ∧
    c4State.plmcReservedBidding = 10 ∧ ¬(20 = 10 + (10 - 10)) := by
  refine ⟨by decide, by decide, by decide, by decide, by decide⟩

/-- C5 eviction-scenario bid (10 tokens at price 6, submitted at block 3,
backed by 60 PLMC of vesting). -/
def c5Bid6 : BidInfo :=
  ⟨2, 10, 6, 60, 3, 1, false, ⟨60, 0, 0, 0, 0⟩, ⟨10, 7, 7, 0, 0⟩, BidStatus.yetUnknown⟩

/-- C5 eviction-scenario bid (10 tokens at price 5, submitted at block 2,
backed by 50 PLMC of vesting): the lowest bid, to be evicted. -/
def c5Bid5 : BidInfo :=
  ⟨1, 10, 5, 50, 2, 1, false, ⟨50, 0, 0, 0, 0⟩, ⟨10, 7, 7, 0, 0⟩, BidStatus.yetUnknown⟩

/-- C5 scenario state: `MaximumBidsPerUser = 2` is already reached with the
(10@6) and (10@5) bids; the bidding bond is 110 (= 60 + 50) and both
currencies have just enough free balance (70) for a new 10@7 bid. -/
def c5State : BidState :=
  ⟨some c45Details, some c45Meta, some 0, some (110, 0), [c5Bid6, c5Bid5], 3,
    70, 110, 70, 110⟩

/-- The bid the C5 scenario inserts by evicting `c5Bid5`. -/
def c5Bid7 : BidInfo :=
  ⟨3, 10, 7, 70, 6, 1, false, ⟨70, 0, 0, 0, 0⟩, ⟨10, 7, 7, 0, 0⟩, BidStatus.yetUnknown⟩

/-- C5 counterexample: with the full bid list `[(10@6), (10@5)]`, a 10@4 bid
is rejected `BidTooLow` (dispatch error, so nothing is reserved), and a 10@7
bid evicts the (10@5) bid releasing its 50 of reserved bidding currency
(reserve goes `110 − 50 + 70 = 130`) — but the evicted bid's PLMC bond is NOT
released: the `BondType::Bidding` reserve ends at `110 + 70 = 180`, not the
`≤ 130` the claimed release of the evicted bond would give. -/
theorem c5_counterexample_bond_not_released :
    doBid 2 1 c5State 1 6 10 4 none = RuntimeResult.err FundingError.bidTooLow ∧
    doBid 2 1 c5State 1 6 10 7 none = RuntimeResult.ok { c5State with
      biddingBond := some (180, 0)
      userBids := [c5Bid7, c5Bid6]
      nextBidId := 4
      plmcFree := 0
      plmcReservedBidding := 180
      biddingCurrencyFree := 50
      biddingCurrencyReserved := 130 } ∧
    c5Bid5.plmcVestingPeriod.amount = 50 ∧ ¬(180 ≤ 110 + 70 - 50) := by
  refine ⟨by decide, by decide, by decide, by decide⟩

/-- The length of the list returned by a successful `swapRemove` is one less
than the input's. -/
theorem swapRemove_length (l : List α) (i : Nat) (x : α) (rest : List α)
    (h : swapRemove l i = some (x, rest)) : rest.length = l.length - 1 := by
  unfold swapRemove at h
  by_cases hi : i < l.length
  · simp [hi] at h
    rw [← h.2]
    simp
  · simp [hi] at h

/-- C5 amended: when the bidder's list is at `MaximumBidsPerUser` capacity,
`do_bid` inserts the new bid only if its price is strictly higher than the
lowest (last) bid's price — at an equal price the existing bid wins — in
which case the lowest bid is evicted and its reserved bidding currency (its
`ticket_size`) is released, the new bid's ticket is reserved and the list
re-sorted price-descending; the evicted bid's PLMC bond and named reserve are
NOT released (they grow by the full bond of the new bid).  Otherwise the call
fails with `BidTooLow` and, the dispatch error rolling the extrinsic back, no
reservation is made for the rejected bid. -/
theorem c5_amended_eviction_policy (maxBidsPerUser maxPTU : Nat) (s : BidState)
    (bidder now amount price : Nat) (multiplierArg : Option Nat)
    (info : ProjectDetails) (project : ProjectMetadata) (issuer : Nat)
    (lowestBid : BidInfo) (rest : List BidInfo)
    (hd : s.details = some info)
    (hi : s.issuer = some issuer)
    (hm : s.metadata = some project)
    (hne : bidder ≠ issuer)
    (hphase : isAuctionRound info.projectStatus = true)
    (hminp : project.minimumPrice ≤ price)
    (hmint : ∀ m, project.ticketSize.minimum = some m → m ≤ satMul amount price)
    (hmaxt : ∀ m, project.ticketSize.maximum = some m → satMul amount price ≤ m)
    (hcandle : ∀ e, info.phaseTransitionPoints.candleAuction.«end» = some e → now < e)
    (hcap : 1 ≤ maxBidsPerUser)
    (hfull : s.userBids.length = maxBidsPerUser)
    (hswap : swapRemove s.userBids (maxBidsPerUser - 1) = some (lowestBid, rest))
    (hplmc : (calculateVestingPeriods maxPTU (multiplierArg.getD 1) amount price
      project.decimals).1.amount ≤ s.plmcFree) :
    (¬lowestBid.price < price →
      doBid maxBidsPerUser maxPTU s bidder now amount price multiplierArg =
        RuntimeResult.err FundingError.bidTooLow) ∧
    (lowestBid.price < price →
      satMul amount price ≤
        s.biddingCurrencyFree + min lowestBid.ticketSize s.biddingCurrencyReserved →
      doBid maxBidsPerUser maxPTU s bidder now amount price multiplierArg =
        RuntimeResult.ok { s with
          biddingBond := some (match s.biddingBond with
            | some (a, w) =>
              (a + (calculateVestingPeriods maxPTU (multiplierArg.getD 1) amount price
                project.decimals).1.amount, w)
            | none =>
              ((calculateVestingPeriods maxPTU (multiplierArg.getD 1) amount price
                project.decimals).1.amount, now))
          plmcFree := s.plmcFree - (calculateVestingPeriods maxPTU
            (multiplierArg.getD 1) amount price project.decimals).1.amount
          plmcReservedBidding := s.plmcReservedBidding + (calculateVestingPeriods maxPTU
            (multiplierArg.getD 1) amount price project.decimals).1.amount
          userBids := sortBidsDescending (rest ++
            [BidInfo.new s.nextBidId amount price now bidder
              (calculateVestingPeriods maxPTU (multiplierArg.getD 1) amount price
                project.decimals).1
              (calculateVestingPeriods maxPTU (multiplierArg.getD 1) amount price
                project.decimals).2])
          nextBidId := s.nextBidId + 1
          biddingCurrencyFree := s.biddingCurrencyFree +
            min lowestBid.ticketSize s.biddingCurrencyReserved - satMul amount price
          biddingCurrencyReserved := s.biddingCurrencyReserved -
            min lowestBid.ticketSize s.biddingCurrencyReserved + satMul amount price }) := by
  have hminOk : (match project.ticketSize.minimum with
      | some minimumTicketSize => decide (minimumTicketSize ≤ satMul amount price)
      | none => true) = true := by
    cases hmm : project.ticketSize.minimum with
    | none => rfl
    | some m => simpa using hmint m hmm
  have hmaxOk : (match project.ticketSize.maximum with
      | some maximumTicketSize => decide (satMul amount price ≤ maximumTicketSize)
      | none => true) = true := by
    cases hmm : project.ticketSize.maximum with
    | none => rfl
    | some m => simpa using hmaxt m hmm
  have hcandleOk : (match info.phaseTransitionPoints.candleAuction.«end» with
      | some biddingEndBlock => decide (now < biddingEndBlock)
      | none => true) = true := by
    cases hcc : info.phaseTransitionPoints.candleAuction.«end» with
    | none => rfl
    | some e => simpa using hcandle e hcc
  have hnotroom : ¬s.userBids.length < maxBidsPerUser := by omega
  have hrest : rest.length < maxBidsPerUser := by
    have := swapRemove_length s.userBids (maxBidsPerUser - 1) lowestBid rest hswap
    omega
  constructor
  · intro hlow
    simp only [doBid, hd, hi, hm, bondBidding, hcandleOk, BidInfo.new]
    simp [hne, hphase, hminp, hminOk, hmaxOk, hplmc, hnotroom, hswap, hlow]
  · intro hlow hcurrency
    simp only [doBid, hd, hi, hm, bondBidding, hcandleOk, BidInfo.new]
    simp [hne, hphase, hminp, hminOk, hmaxOk, hplmc, hnotroom, hswap, hlow, hrest,
      hcurrency, BidInfo.new]

/-- Witness for C5's amended theorem at the eviction scenario: the 10@4 bid is
rejected and the 10@7 bid is inserted, evicting the (10@5) bid. -/
theorem c5_amended_witness :
    doBid 2 1 c5State 1 6 10 4 none = RuntimeResult.err FundingError.bidTooLow ∧
    doBid 2 1 c5State 1 6 10 7 none = RuntimeResult.ok { c5State with
      biddingBond := some (180, 0)
      plmcFree := 0
      plmcReservedBidding := 180
      userBids := sortBidsDescending ([c5Bid6] ++
        [BidInfo.new 3 10 7 6 1 ⟨70, 0, 0, 0, 0⟩ ⟨10, 7, 7, 0, 0⟩])
      nextBidId := 4
      biddingCurrencyFree := 50
      biddingCurrencyReserved := 130 } := by
  have h := c5_amended_eviction_policy 2 1 c5State 1 6 10 4 none c45Details c45Meta 0
    c5Bid5 [c5Bid6] rfl rfl rfl (by decide) (by decide) (by decide)
    (by intro m hm; simp [c45Meta] at hm; subst hm; decide)
    (by intro m hm; simp [c45Meta] at hm)
    (by intro e he; simp [c45Details, createProjectDetails, c45Meta] at he)
    (by decide) (by decide) (by decide) (by decide)
  have h7 := c5_amended_eviction_policy 2 1 c5State 1 6 10 7 none c45Details c45Meta 0
    c5Bid5 [c5Bid6] rfl rfl rfl (by decide) (by decide) (by decide)
    (by intro m hm; simp [c45Meta] at hm; subst hm; decide)
    (by intro m hm; simp [c45Meta] at hm)
    (by intro e he; simp [c45Details, createProjectDetails, c45Meta] at he)
    (by decide) (by decide) (by decide) (by decide)
  refine ⟨h.1 (by decide), ?_⟩
  have := h7.2 (by decide) (by decide)
  simpa [c5State, calculateVestingPeriods, addDecimalsToNumber, satMul, satPow,
    balMax, c45Meta] using this

/-! ## Claim C10: the `ProjectsDetails` unwrap in the bonding helpers -/

/-- With the project present, `bond_bidding` takes an `err`/`ok` branch, never
the unwrap panic. -/
theorem bondBidding_not_panicked (s : BidState) (now amount : Nat)
    (info : ProjectDetails) (hd : s.details = some info) :
    bondBidding s now amount ≠ RuntimeResult.panicked := by
  simp only [bondBidding, hd]
  repeat' split
  all_goals simp

/-- A successful `bond_bidding` changes only the bond and the PLMC balances:
the bid list is untouched. -/
theorem bondBidding_userBids (s : BidState) (now amount : Nat) (s1 : BidState)
    (h : bondBidding s now amount = RuntimeResult.ok s1) :
    s1.userBids = s.userBids := by
  unfold bondBidding at h
  cases hd : s.details with
  | none => rw [hd] at h; cases h
  | some info =>
    rw [hd] at h
    dsimp only at h
    split at h
    · split at h
      · cases h; rfl
      · cases h
    · cases h

/-- With the project present, `bond_contributing` takes an `err`/`ok` branch,
never the unwrap panic. -/
theorem bondContributing_not_panicked (s : ContribState) (now amount : Nat)
    (info : ProjectDetails) (hd : s.details = some info) :
    bondContributing s now amount ≠ RuntimeResult.panicked := by
  simp only [bondContributing, hd]
  repeat' split
  all_goals simp

/-- A successful `bond_contributing` changes only the bond and the PLMC
balances: the contribution list is untouched. -/
theorem bondContributing_userContributions (s : ContribState) (now amount : Nat)
    (s1 : ContribState) (h : bondContributing s now amount = RuntimeResult.ok s1) :
    s1.userContributions = s.userContributions := by
  unfold bondContributing at h
  cases hd : s.details with
  | none => rw [hd] at h; cases h
  | some info =>
    rw [hd] at h
    dsimp only at h
    split at h
    · split at h
      · cases h; rfl
      · cases h
    · cases h

set_option maxHeartbeats 2000000 in
/-- C10: `bond_bidding` and `bond_contributing` unwrap the `ProjectsDetails`
lookup, so on an absent project they panic rather than return an error; when
the project exists they never panic, and `do_bid` / `do_contribute` — which
look the project up (erroring on absence) before calling them — never reach
the panic at all (given the bounded-vector invariant that the stored list is
within its capacity, and a positive capacity). -/
theorem c10_bonding_unwrap_totality :
    (∀ (s : BidState) (now amount : Nat), s.details = none →
      bondBidding s now amount = RuntimeResult.panicked) ∧
    (∀ (s : ContribState) (now amount : Nat), s.details = none →
      bondContributing s now amount = RuntimeResult.panicked) ∧
    (∀ (s : BidState) (now amount : Nat) (info : ProjectDetails),
      s.details = some info →
      bondBidding s now amount ≠ RuntimeResult.panicked) ∧
    (∀ (s : ContribState) (now amount : Nat) (info : ProjectDetails),
      s.details = some info →
      bondContributing s now amount ≠ RuntimeResult.panicked) ∧
    (∀ (maxBidsPerUser maxPTU : Nat) (s : BidState)
      (bidder now amount price : Nat) (m : Option Nat),
      1 ≤ maxBidsPerUser → s.userBids.length ≤ maxBidsPerUser →
      doBid maxBidsPerUser maxPTU s bidder now amount price m ≠
        RuntimeResult.panicked) ∧
    (∀ (maxContributionsPerUser maxPTU : Nat) (s : ContribState)
      (contributor now tokenAmount : Nat) (m : Option Nat),
      1 ≤ maxContributionsPerUser →
      s.userContributions.length ≤ maxContributionsPerUser →
      doContribute maxContributionsPerUser maxPTU s contributor now tokenAmount m ≠
        RuntimeResult.panicked) := by
  refine ⟨?_, ?_, ?_, ?_, ?_, ?_⟩
  · intro s now amount hd
    simp [bondBidding, hd]
  · intro s now amount hd
    simp [bondContributing, hd]
  · intro s now amount info hd
    exact bondBidding_not_panicked s now amount info hd
  · intro s now amount info hd
    exact bondContributing_not_panicked s now amount info hd
  · intro maxBidsPerUser maxPTU s bidder now amount price m hcap hlen
    cases hd : s.details with
    | none => simp [doBid, hd]
    | some info =>
      cases hi : s.issuer with
      | none => simp [doBid, hd, hi]
      | some issuer =>
        cases hm : s.metadata with
        | none => simp [doBid, hd, hi, hm]
        | some project =>
          simp only [doBid, hd, hi, hm]
          repeat' split
          all_goals try simp
          next heq =>
            exact absurd heq (bondBidding_not_panicked s now _ info hd)
          next s1 hb hroom x hswap =>
            have husers := bondBidding_userBids s now _ s1 hb
            rw [husers] at hroom hswap
            have hidx : maxBidsPerUser - 1 < s.userBids.length := by omega
            simp [swapRemove, hidx] at hswap
          next s1 hb hroom x lowest rest hswap hlow hbal hrest =>
            have husers := bondBidding_userBids s now _ s1 hb
            rw [husers] at hroom hswap
            have hr := swapRemove_length s.userBids (maxBidsPerUser - 1) lowest rest hswap
            omega
  · intro maxContributionsPerUser maxPTU s contributor now tokenAmount m hcap hlen
    cases hi : s.issuer with
    | none => simp [doContribute, hi]
    | some issuer =>
      cases hd : s.details with
      | none => simp [doContribute, hd, hi]
      | some info =>
        cases hm : s.metadata with
        | none => simp [doContribute, hd, hi, hm]
        | some project =>
          cases hw : info.weightedAveragePrice with
          | none => simp [doContribute, hd, hi, hm, hw]
          | some wap =>
            simp only [doContribute, hd, hi, hm, hw]
            repeat' split
            all_goals try simp
            next heq =>
              exact absurd heq (bondContributing_not_panicked s now _ info hd)
            next x2 s1 hb after x1 hroom x hswap =>
              have husers := bondContributing_userContributions s now _ s1 hb
              rw [husers] at hroom hswap
              have hidx : maxContributionsPerUser - 1 < s.userContributions.length := by
                omega
              simp [swapRemove, hidx] at hswap
            next x2 s1 hb after x1 hroom x lowest rest hswap hbuy hlow hfund hrest =>
              have husers := bondContributing_userContributions s now _ s1 hb
              rw [husers] at hroom hswap
              have hr := swapRemove_length s.userContributions
                (maxContributionsPerUser - 1) lowest rest hswap
              omega
            next x2 s1 hb after x1 hroom x lowest rest hswap hbuy hlow hfund hrest =>
              have husers := bondContributing_userContributions s now _ s1 hb
              rw [husers] at hroom hswap
              have hr := swapRemove_length s.userContributions
                (maxContributionsPerUser - 1) lowest rest hswap
              omega

/-- Witness for C10: on a state with no project details, `bond_bidding`
panics; on the C5 scenario state (project present, bounded bid list) neither
`bond_bidding` nor `do_bid` panics. -/
theorem c10_witness :
    bondBidding ⟨none, none, none, none, [], 0, 0, 0, 0, 0⟩ 0 5 =
      RuntimeResult.panicked ∧
    bondBidding c5State 6 70 ≠ RuntimeResult.panicked ∧
    doBid 2 1 c5State 1 6 10 7 none ≠ RuntimeResult.panicked ∧
    bondContributing ⟨none, none, none, none, [], 0, 0, 0, []⟩ 0 5 =
      RuntimeResult.panicked := by
  refine ⟨?_, ?_, ?_, ?_⟩
  · exact c10_bonding_unwrap_totality.1 ⟨none, none, none, none, [], 0, 0, 0, 0, 0⟩ 0 5 rfl
  · exact c10_bonding_unwrap_totality.2.2.1 c5State 6 70 c45Details rfl
  · exact c10_bonding_unwrap_totality.2.2.2.2.1 2 1 c5State 1 6 10 7 none
      (by decide) (by decide)
  · exact c10_bonding_unwrap_totality.2.1 ⟨none, none, none, none, [], 0, 0, 0, []⟩ 0 5 rfl

/-! ## Claim C7: phase-transition guards -/

/-- The project's status as stored, `none` when the project is absent. -/
def statusOf (s : PState) : Option ProjectStatus :=
  s.details.map ProjectDetails.projectStatus

/-- C7 counterexample metadata. -/
def c7Meta : ProjectMetadata := ⟨10, 1, ⟨some 1, none⟩, 0, some 1⟩

/-- C7 counterexample details: community round, all tokens sold
(`remaining_contribution_tokens = 0`), remainder phase points not yet set. -/
def c7Details : ProjectDetails :=
  { createProjectDetails c7Meta 0 with
    projectStatus := ProjectStatus.communityRound
    weightedAveragePrice := some 5
    remainingContributionTokens := 0 }

/-- C7 counterexample state. -/
def c7State : PState := ⟨some c7Details, some c7Meta, some 0, [], [], false, []⟩

/-- C7 counterexample: `do_end_funding` has no status check, so with the
community round sold out (remainder end not set, zero tokens remaining) it
succeeds from `CommunityRound` — not from the remainder round, the forward
order's sole predecessor of `FundingEnded` — refuting that every
phase-transition function succeeds only from its single expected predecessor
status. -/
theorem c7_counterexample_end_funding_unguarded :
    doEndFunding c7State 5 = RuntimeResult.ok { c7State with
      details := some { c7Details with projectStatus := ProjectStatus.fundingEnded }
      assetCreated := true } ∧
    statusOf c7State = some ProjectStatus.communityRound ∧
    ProjectStatus.communityRound ≠ ProjectStatus.remainderRound := by
  refine ⟨by decide, by decide, by decide⟩

set_option maxHeartbeats 2000000 in
/-- C7 amended: each of `do_evaluation_start`, `do_evaluation_end`,
`do_english_auction`, `do_candle_auction`, `do_community_funding`,
`do_remainder_funding` and `do_ready_to_launch` succeeds only when the
project's status is its single expected predecessor (an error, as a dispatch
error, rolls the extrinsic back and leaves the state unchanged), and after a
success, repeating the same call at the same tick fails with that function's
wrong-phase error.  `do_end_funding`, by contrast, checks only its timing /
sold-out condition and the asset-class creation, not the status: it succeeds
from any status whatsoever when that condition holds. -/
theorem c7_amended_transition_guards :
    (∀ (cfg : Config) (s : PState) (now : Nat) (s' : PState),
      doEvaluationStart cfg s now = RuntimeResult.ok s' →
      statusOf s = some ProjectStatus.application ∧
      doEvaluationStart cfg s' now =
        RuntimeResult.err FundingError.projectNotInApplicationRound) ∧
    (∀ (cfg : Config) (s : PState) (now : Nat) (s' : PState),
      doEvaluationEnd cfg s now = RuntimeResult.ok s' →
      statusOf s = some ProjectStatus.evaluationRound ∧
      doEvaluationEnd cfg s' now =
        RuntimeResult.err FundingError.projectNotInEvaluationRound) ∧
    (∀ (cfg : Config) (s : PState) (now : Nat) (s' : PState),
      doEnglishAuction cfg s now = RuntimeResult.ok s' →
      statusOf s = some ProjectStatus.auctionInitializePeriod ∧
      doEnglishAuction cfg s' now =
        RuntimeResult.err FundingError.projectNotInAuctionInitializePeriodRound) ∧
    (∀ (cfg : Config) (s : PState) (now : Nat) (s' : PState),
      doCandleAuction cfg s now = RuntimeResult.ok s' →
      statusOf s = some (ProjectStatus.auctionRound AuctionPhase.english) ∧
      doCandleAuction cfg s' now =
        RuntimeResult.err FundingError.projectNotInEnglishAuctionRound) ∧
    (∀ (cfg : Config) (rand : Nat) (s : PState) (now : Nat) (s' : PState)
      (rand' : Nat),
      doCommunityFunding cfg rand s now = RuntimeResult.ok s' →
      statusOf s = some (ProjectStatus.auctionRound AuctionPhase.candle) ∧
      doCommunityFunding cfg rand' s' now =
        RuntimeResult.err FundingError.projectNotInCandleAuctionRound) ∧
    (∀ (cfg : Config) (s : PState) (now : Nat) (s' : PState),
      doRemainderFunding cfg s now = RuntimeResult.ok s' →
      statusOf s = some ProjectStatus.communityRound ∧
      doRemainderFunding cfg s' now =
        RuntimeResult.err FundingError.projectNotInCommunityRound) ∧
    (∀ (s : PState) (s' : PState),
      doReadyToLaunch s = RuntimeResult.ok s' →
      statusOf s = some ProjectStatus.fundingEnded ∧
      doReadyToLaunch s' =
        RuntimeResult.err FundingError.projectNotInFundingEndedRound) ∧
    (∀ (s : PState) (now : Nat) (info : ProjectDetails) (issuer : Nat)
      (project : ProjectMetadata),
      s.details = some info → s.issuer = some issuer → s.metadata = some project →
      (match info.phaseTransitionPoints.remainder.«end» with
        | some endBlock => decide (endBlock < now)
        | none => decide (info.remainingContributionTokens = 0)) = true →
      s.assetCreated = false →
      doEndFunding s now = RuntimeResult.ok { s with
        details := some { info with projectStatus := ProjectStatus.fundingEnded }
        assetCreated := true }) := by
  refine ⟨?_, ?_, ?_, ?_, ?_, ?_, ?_, ?_⟩
  · intro cfg s now s' h
    unfold doEvaluationStart at h
    cases hd : s.details with
    | none => rw [hd] at h; cases h
    | some info =>
      rw [hd] at h
      cases hm : s.metadata with
      | none => rw [hm] at h; cases h
      | some project =>
        rw [hm] at h
        dsimp only at h
        repeat' split at h
        all_goals try cases h
        all_goals simp_all [statusOf, doEvaluationStart]
  · intro cfg s now s' h
    unfold doEvaluationEnd at h
    cases hd : s.details with
    | none => rw [hd] at h; cases h
    | some info =>
      rw [hd] at h
      dsimp only at h
      repeat' split at h
      all_goals try cases h
      all_goals simp_all [statusOf, doEvaluationEnd]
  · intro cfg s now s' h
    unfold doEnglishAuction at h
    cases hd : s.details with
    | none => rw [hd] at h; cases h
    | some info =>
      rw [hd] at h
      dsimp only at h
      cases hstart : info.phaseTransitionPoints.auctionInitializePeriod.start with
      | none => rw [hstart] at h; cases h
      | some aipStart =>
        rw [hstart] at h
        cases hend : info.phaseTransitionPoints.auctionInitializePeriod.«end» with
        | none => rw [hend] at h; cases h
        | some aipEnd =>
          rw [hend] at h
          dsimp only at h
          by_cases ht : aipStart ≤ now
          · rw [if_pos ht] at h
            by_cases hst : info.projectStatus = ProjectStatus.auctionInitializePeriod
            · rw [if_pos hst] at h
              by_cases hc : now ≤ aipEnd
              · rw [if_pos hc] at h
                simp only [removeFromUpdateStore] at h
                cases hsch : s.scheduled with
                | nil => simp [hsch] at h
                | cons a rest =>
                  simp only [hsch] at h
                  cases h
                  refine ⟨by simp [statusOf, hd, hst], ?_⟩
                  simp [doEnglishAuction, hstart, hend, ht]
              · rw [if_neg hc] at h
                dsimp only at h
                cases h
                refine ⟨by simp [statusOf, hd, hst], ?_⟩
                simp [doEnglishAuction, hstart, hend, ht]
            · rw [if_neg hst] at h; cases h
          · rw [if_neg ht] at h; cases h
  · intro cfg s now s' h
    unfold doCandleAuction at h
    cases hd : s.details with
    | none => rw [hd] at h; cases h
    | some info =>
      rw [hd] at h
      dsimp only at h
      repeat' split at h
      all_goals try cases h
      all_goals simp_all [statusOf, doCandleAuction]
  · intro cfg rand s now s' rand' h
    unfold doCommunityFunding at h
    cases hd : s.details with
    | none => rw [hd] at h; cases h
    | some info =>
      rw [hd] at h
      dsimp only at h
      repeat' split at h
      all_goals try cases h
      all_goals simp_all [statusOf, doCommunityFunding]
  · intro cfg s now s' h
    unfold doRemainderFunding at h
    cases hd : s.details with
    | none => rw [hd] at h; cases h
    | some info =>
      rw [hd] at h
      dsimp only at h
      repeat' split at h
      all_goals try cases h
      all_goals simp_all [statusOf, doRemainderFunding]
  · intro s s' h
    unfold doReadyToLaunch at h
    cases hd : s.details with
    | none => rw [hd] at h; cases h
    | some info =>
      rw [hd] at h
      dsimp only at h
      repeat' split at h
      all_goals try cases h
      all_goals simp_all [statusOf, doReadyToLaunch]
  · intro s now info issuer project hd hi hm htiming hasset
    simp [doEndFunding, hd, hi, hm, htiming, hasset]

/-- The C7 witness state in `FundingEnded`, as left by the counterexample
run. -/
def c7ReadyState : PState :=
  ⟨some { c7Details with projectStatus := ProjectStatus.fundingEnded },
    some c7Meta, some 0, [], [], true, []⟩

/-- Witness for C7's amended theorem: `do_ready_to_launch` succeeds from
`FundingEnded` and its immediate repetition fails with the wrong-phase
error, and `do_end_funding` succeeds from the sold-out community round. -/
theorem c7_amended_witness :
    (statusOf c7ReadyState = some ProjectStatus.fundingEnded ∧
      doReadyToLaunch { c7ReadyState with
        details := some { c7Details with projectStatus := ProjectStatus.readyToLaunch } } =
        RuntimeResult.err FundingError.projectNotInFundingEndedRound) ∧
    doEndFunding c7State 5 = RuntimeResult.ok { c7State with
      details := some { c7Details with projectStatus := ProjectStatus.fundingEnded }
      assetCreated := true } := by
  constructor
  · exact c7_amended_transition_guards.2.2.2.2.2.2.1 c7ReadyState
      { c7ReadyState with
        details := some { c7Details with projectStatus := ProjectStatus.readyToLaunch } }
      rfl
  · exact c7_amended_transition_guards.2.2.2.2.2.2.2 c7State 5 c7Details 0 c7Meta
      rfl rfl rfl (by decide) rfl

end Polimec
